import Mathlib

/-!
Shallow embedding of the kube-nodes provider pipeline of crash-diagnostics
(package `starlark`: `KubeNodesProviderFn`/`newKubeNodesProvider`,
`generateSearchParams`, `getNodes`, `getNodeInternalIP`, and
`crashdConfigFn`/`addDefaultCrashdConf`), together with theorems settling
the frozen claims about it.

Starlark values are modelled by the inductive `SValue`; Go maps
(`starlark.StringDict`, `starlark.Dict`) and struct attribute sets are
modelled by association lists with map semantics (`sdGet`/`sdSet`: one
binding per key, `sdSet` replaces in place).  Go errors are `Except String`.
External collaborators (the kubeconfig lookup, the k8s client construction
and its `Search` call, the unstructured-to-typed converter) enter as
parameters or as their contractual outcome types.
-/

set_option autoImplicit false

namespace CrashDiagnostics

/-- Starlark values, as far as the examined surface manipulates them:
strings, lists, structs (`starlarkstruct.Struct`, an attribute map),
dictionaries (`starlark.Dict`), and the nil/None value (covering both
`starlark.None` and a nil Go pointer stored as a value). -/
inductive SValue where
  | str : String → SValue
  | list : List SValue → SValue
  | structv : List (String × SValue) → SValue
  | dict : List (String × SValue) → SValue
  | none : SValue
deriving Repr

/-- A Go `starlark.StringDict` / struct attribute set: string-keyed map,
modelled as an association list with at most one binding per key. -/
def StringDict : Type := List (String × SValue)

/-- Map lookup: the value bound to `k`, if any (Go `dict[k]` presence /
`struct.Attr k` success). -/
def sdGet : StringDict → String → Option SValue
  | [], _ => Option.none
  | (k', v) :: rest, k => if k' = k then some v else sdGet rest k

/-- Map update: Go `dict[k] = v` (replaces the existing binding for `k`,
otherwise appends a fresh one). -/
def sdSet : StringDict → String → SValue → StringDict
  | [], k, v => [(k, v)]
  | (k', v') :: rest, k, v =>
      if k' = k then (k, v) :: rest else (k', v') :: sdSet rest k v

/-- Modelled from the spec: the `identifiers.kubeNodesProvider` constant
(declared elsewhere in the `starlark` package, not among the examined
files); the spec fixes the provider kind tag as `"kube_nodes_provider"`. -/
def identifiers_kubeNodesProvider : String := "kube_nodes_provider"

/-- Modelled from the spec: the `identifiers.sshCfg` constant (declared
elsewhere in the `starlark` package); the spec names the connection
sub-configuration argument key `"ssh_config"`. -/
def identifiers_sshCfg : String := "ssh_config"

/-- Modelled from the spec: the `identifiers.crashdCfg` constant (declared
elsewhere in the `starlark` package); the key under which the default
crashd configuration is stored in the Shared Execution Context. -/
def identifiers_crashdCfg : String := "crashd_config"

/-- Embeds `k8s.SearchParams`: the canonical search-parameter record (names and
labels filters). -/
structure SearchParams where
  names : List String
  labels : List String
deriving Repr

/-- Strings held by an optional Starlark value: a plain string is a
singleton, a list contributes its string elements, anything else none. -/
def toStringList : Option SValue → List String
  | some (SValue.str s) => [s]
  | some (SValue.list vs) =>
      vs.filterMap fun v =>
        match v with
        | SValue.str s => some s
        | _ => Option.none
  | _ => []

/-- Modelled from the spec: `k8s.NewSearchParams` (in the repository's
`k8s` package, not among the examined files) reads the recognized
set-valued keys `names` and `labels` from the struct into a
`SearchParams`; it is total (the Go signature returns no error). -/
def NewSearchParams (structVal : StringDict) : SearchParams :=
  { names := toStringList (sdGet structVal "names")
    labels := toStringList (sdGet structVal "labels") }

/-- Modelled from the spec: `SearchParams.Names()` renders the names
filter as a single space-separated string for the search client. -/
def SearchParams.NamesStr (p : SearchParams) : String :=
  String.intercalate " " p.names

/-- Modelled from the spec: `SearchParams.Labels()` renders the labels
filter as a single space-separated string for the search client. -/
def SearchParams.LabelsStr (p : SearchParams) : String :=
  String.intercalate " " p.labels

/-- Embeds `generateSearchParams`: if the struct has a `nodes` attribute, dump it
to a dict, bind `names` to the `nodes` value (overwriting any existing
`names` binding), rebuild the struct, then hand it to `NewSearchParams`. -/
def generateSearchParams (structVal : StringDict) : SearchParams :=
  let structVal' :=
    match sdGet structVal "nodes" with
    | some v => sdSet structVal "names" v
    | Option.none => structVal
  NewSearchParams structVal'

/-- One entry of `coreV1.Node.Status.Addresses`: an address tagged with a
type (`"InternalIP"`, `"ExternalIP"`, `"Hostname"`, ...). -/
structure NodeAddress where
  type : String
  address : String
deriving Repr

/-- Embeds `coreV1.NodeStatus`, restricted to the field the code reads. -/
structure NodeStatus where
  addresses : List NodeAddress
deriving Repr

/-- Embeds `coreV1.Node`, restricted to the fields the code reads. -/
structure Node where
  status : NodeStatus
deriving Repr

/-- Scan of the address list inside `getNodeInternalIP`: the first entry
whose type is `"InternalIP"` yields its address, otherwise the loop falls
through and the named return keeps its zero value `""`. -/
def firstInternalIP : List NodeAddress → String
  | [] => ""
  | addr :: rest =>
      if addr.type = "InternalIP" then addr.address else firstInternalIP rest

/-- Embeds `getNodeInternalIP node`. -/
def getNodeInternalIP (node : Node) : String :=
  firstInternalIP node.status.addresses

/-- One raw item of a search result (`item.Object`, unstructured data),
abstracted by the outcome of the external converter contract: it either
holds the shape of a node or fails to decode with some error. -/
inductive RawItem where
  | okItem : Node → RawItem
  | badItem : String → RawItem
deriving Repr

/-- Contract of the external `runtime.DefaultUnstructuredConverter.
FromUnstructured` call on one item: a typed node or a decode error. -/
def fromUnstructured : RawItem → Except String Node
  | RawItem.okItem n => Except.ok n
  | RawItem.badItem e => Except.error e

/-- One element of the list returned by `k8s.Client.Search`, restricted to
the field the code reads (`result.List.Items`). -/
structure SearchResult where
  items : List RawItem
deriving Repr

/-- The query client bound by `k8s.New`: its `Search` method, a function
of the seven string filters (group, kind, namespaces, version, names,
labels, containers) to a result list or an error. -/
def Client : Type :=
  String → String → String → String → String → String → String →
    Except String (List SearchResult)

/-- Inner loop of the collation in `getNodes`: decode the items of one
result in order, aborting on the first decode failure. -/
def collateItems : List RawItem → Except String (List Node)
  | [] => Except.ok []
  | item :: rest =>
      match fromUnstructured item with
      | Except.error e => Except.error e
      | Except.ok n =>
          match collateItems rest with
          | Except.error e => Except.error e
          | Except.ok ns => Except.ok (n :: ns)

/-- Outer loop of the collation in `getNodes`: append the decoded nodes of
every result, in result order, aborting on the first decode failure. -/
def collateResults : List SearchResult → Except String (List Node)
  | [] => Except.ok []
  | r :: rs =>
      match collateItems r.items with
      | Except.error e => Except.error e
      | Except.ok ns =>
          match collateResults rs with
          | Except.error e => Except.error e
          | Except.ok rest => Except.ok (ns ++ rest)

/-- Embeds `getNodes k8sc names labels`: run the fixed-filter search
(group `"core"`, kind `"nodes"`, empty namespaces/version/containers) and
collate the returned items into typed nodes. -/
def getNodes (k8sc : Client) (names labels : String) :
    Except String (List Node) :=
  match k8sc "core" "nodes" "" "" names labels "" with
  | Except.error e => Except.error e
  | Except.ok nodeResults => collateResults nodeResults

/-- Embeds `errors.Wrap(err, msg)`: prepend contextual text to the error case. -/
def wrap (msg : String) : Except String SValue → Except String SValue :=
  fun r =>
    match r with
    | Except.error e => Except.error (msg ++ ": " ++ e)
    | Except.ok v => Except.ok v

/-- Embeds `errors.Wrap` at an arbitrary payload type. -/
def wrapE {α : Type} (msg : String) : Except String α → Except String α :=
  fun r =>
    match r with
    | Except.error e => Except.error (msg ++ ": " ++ e)
    | Except.ok v => Except.ok v

/-- The Shared Execution Context visible to one resolution: the thread's
local store (`thread.Local`/`thread.SetLocal`), a string-keyed map. -/
def Thread : Type := List (String × SValue)

/-- Embeds `newKubeNodesProvider thread structVal kubeConfigPath k8sNew`:
the provider composer.  `kubeConfigPath` is the outcome of the external
`getKubeConfigPath(thread, structVal)` call and `k8sNew` the outcome of
the external `k8s.New(kubeconfig)` call; everything after those two steps
mirrors the examined source line by line: build the search parameters,
fetch and collate nodes, build the result dict with the constant `kind`
and `transport` entries, add `hosts` as the ordered internal-IP list, and
finally — since the freshly built dict never contains the
`identifiers.sshCfg` key — read the default ssh configuration from the
thread local store, failing when it does not hold a struct. -/
def newKubeNodesProvider (thread : Thread) (structVal : StringDict)
    (kubeConfigPath : Except String String)
    (k8sNew : String → Except String Client) :
    Except String StringDict :=
  match wrapE "failed to kubeconfig" kubeConfigPath with
  | Except.error e => Except.error e
  | Except.ok kubeconfig =>
    match wrapE "could not initialize search client" (k8sNew kubeconfig) with
    | Except.error e => Except.error e
    | Except.ok client =>
      let searchParams := generateSearchParams structVal
      match wrapE "could not fetch nodes"
          (getNodes client searchParams.NamesStr searchParams.LabelsStr) with
      | Except.error e => Except.error e
      | Except.ok nodes =>
        let kubeNodesProviderDict : StringDict :=
          [("kind", SValue.str identifiers_kubeNodesProvider),
           ("transport", SValue.str "ssh")]
        let nodeIps : List SValue :=
          nodes.map fun node => SValue.str (getNodeInternalIP node)
        let kubeNodesProviderDict :=
          sdSet kubeNodesProviderDict "hosts" (SValue.list nodeIps)
        match sdGet kubeNodesProviderDict identifiers_sshCfg with
        | some _ => Except.ok kubeNodesProviderDict
        | Option.none =>
          match sdGet thread identifiers_sshCfg with
          | some (SValue.structv fields) =>
              Except.ok (sdSet kubeNodesProviderDict identifiers_sshCfg
                (SValue.structv fields))
          | _ => Except.error
              (identifiers_kubeNodesProvider ++ ": default ssh_config not found")

/-- Modelled from the spec: `tupleSliceToDict` (declared elsewhere in the
`starlark` package) wraps the keyword-argument tuples into a dictionary;
keyword keys are strings, so insertion never fails and later bindings for
the same key replace earlier ones. -/
def tupleSliceToDict (tuples : List (String × SValue)) : StringDict :=
  tuples.foldl (fun d kv => sdSet d kv.1 kv.2) []

/-- Embeds `crashdConfigFn thread kwargs`: the `crashd_config` built-in.
`kwargs` is `Option`-valued to mirror the Go nil check: a nil slice skips
the dictionary construction and leaves the nil `*starlark.Dict`
(`SValue.none` here).  The dictionary is stored under
`identifiers.crashdCfg` in the thread local store and returned. -/
def crashdConfigFn (thread : Thread)
    (kwargs : Option (List (String × SValue))) :
    Except String (SValue × Thread) :=
  let dictionary : SValue :=
    match kwargs with
    | some kws => SValue.dict (tupleSliceToDict kws)
    | Option.none => SValue.none
  Except.ok (dictionary, sdSet thread identifiers_crashdCfg dictionary)

/-! ### Association-list map lemmas -/

theorem sdGet_sdSet_self (d : StringDict) (k : String) (v : SValue) :
    sdGet (sdSet d k v) k = some v := by
  induction d with
  | nil => simp [sdSet, sdGet]
  | cons hd tl ih =>
    by_cases h : hd.1 = k
    · simp [sdSet, sdGet, h]
    · simpa [sdSet, sdGet, h] using ih

theorem sdGet_sdSet_ne (d : StringDict) (k k' : String) (v : SValue)
    (h : k ≠ k') : sdGet (sdSet d k v) k' = sdGet d k' := by
  induction d with
  | nil => simp [sdSet, sdGet, h]
  | cons hd tl ih =>
    by_cases hk : hd.1 = k
    · simp [sdSet, sdGet, hk, h]
    · simp only [sdSet, hk, if_false, sdGet]
      by_cases hk' : hd.1 = k' <;> simp [hk', ih]

theorem toStringList_map_str (ss : List String) :
    toStringList (some (SValue.list (ss.map SValue.str))) = ss := by
  induction ss with
  | nil => rfl
  | cons s rest ih =>
    simpa [toStringList, List.filterMap] using
      congrArg (List.cons s) (by simpa [toStringList] using ih)

/-! ### Collation lemmas -/

theorem collateItems_map_ok (ns : List Node) :
    collateItems (ns.map RawItem.okItem) = Except.ok ns := by
  induction ns with
  | nil => rfl
  | cons n rest ih => simp [collateItems, fromUnstructured, ih]

theorem collateResults_all_ok (nss : List (List Node)) :
    collateResults (nss.map fun ns => SearchResult.mk (ns.map RawItem.okItem)) =
      Except.ok nss.flatten := by
  induction nss with
  | nil => rfl
  | cons ns rest ih => simp [collateResults, collateItems_map_ok, ih]

theorem collateItems_bad (items : List RawItem) (msg : String)
    (h : RawItem.badItem msg ∈ items) :
    ∃ e, collateItems items = Except.error e := by
  induction items with
  | nil => cases h
  | cons item rest ih =>
    rcases List.mem_cons.mp h with h1 | h1
    · exact ⟨msg, by simp [← h1, collateItems, fromUnstructured]⟩
    · rcases ih h1 with ⟨e, he⟩
      cases hi : fromUnstructured item with
      | error e' => exact ⟨e', by simp [collateItems, hi]⟩
      | ok n => exact ⟨e, by simp [collateItems, hi, he]⟩

theorem collateResults_bad (results : List SearchResult)
    (r : SearchResult) (msg : String)
    (hr : r ∈ results) (hi : RawItem.badItem msg ∈ r.items) :
    ∃ e, collateResults results = Except.error e := by
  induction results with
  | nil => cases hr
  | cons r0 rest ih =>
    rcases List.mem_cons.mp hr with h1 | h1
    · rcases collateItems_bad r.items msg hi with ⟨e, he⟩
      exact ⟨e, by simp [collateResults, ← h1, he]⟩
    · cases h0 : collateItems r0.items with
      | error e' => exact ⟨e', by simp [collateResults, h0]⟩
      | ok ns =>
        rcases ih h1 with ⟨e, he⟩
        exact ⟨e, by simp [collateResults, h0, he]⟩

/-! ### Concrete fixtures used by witnesses -/

/-- A node carrying one internal address, used by witnesses. -/
def exNode : Node :=
  Node.mk (NodeStatus.mk [NodeAddress.mk "InternalIP" "10.0.0.5"])

/-- A client whose search returns exactly one decodable node item. -/
def exClient : Client :=
  fun _ _ _ _ _ _ _ =>
    Except.ok [SearchResult.mk [RawItem.okItem exNode]]

/-- A default ssh configuration struct, used by witnesses. -/
def exSshFields : List (String × SValue) :=
  [("username", SValue.str "defaultuser")]

/-! ### Claims -/

/-- C4: `getNodeInternalIP` scans the node's address list in its given
order and returns the address of the first entry whose type tag equals
`"InternalIP"`; if no entry matches (including an empty address list) it
returns the empty string — and, being a total function into `String`, it
signals no error. -/
theorem getNodeInternalIP_first_internal (node : Node) :
    getNodeInternalIP node =
      match node.status.addresses.find?
          (fun a => decide (a.type = "InternalIP")) with
      | some a => a.address
      | Option.none => "" := by
  unfold getNodeInternalIP
  induction node.status.addresses with
  | nil => rfl
  | cons addr rest ih =>
    by_cases h : addr.type = "InternalIP"
    · simp [firstInternalIP, List.find?, h]
    · simp [firstInternalIP, List.find?, h, ih]

/-- C3: for an argument mapping containing only the key `names`, the
normalizer's effective `names` equals the given `names` value exactly;
and for any mapping containing both `nodes` and `names`, the effective
`names` equals the `nodes` value, the separately supplied `names` value
being discarded. -/
theorem generateSearchParams_alias :
    (∀ ss : List String,
      (generateSearchParams
        [("names", SValue.list (ss.map SValue.str))]).names = ss) ∧
    (∀ (d : StringDict) (ns : List String) (w : SValue),
      sdGet d "nodes" = some (SValue.list (ns.map SValue.str)) →
      sdGet d "names" = some w →
      (generateSearchParams d).names = ns) := by
  constructor
  · intro ss
    simp [generateSearchParams, sdGet, NewSearchParams, toStringList_map_str]
  · intro d ns w hnodes _hnames
    simp [generateSearchParams, hnodes, NewSearchParams, sdGet_sdSet_self,
      toStringList_map_str]

/-- Witness for C3: scenario of the spec, `{names: [node-a]}` gives
effective names `[node-a]`; `{nodes: [node-b], names: [node-c]}` gives
effective names `[node-b]`, not `[node-c]`. -/
theorem generateSearchParams_alias_witness :
    (generateSearchParams
      [("names", SValue.list [SValue.str "node-a"])]).names = ["node-a"] ∧
    (generateSearchParams
      [("nodes", SValue.list [SValue.str "node-b"]),
       ("names", SValue.list [SValue.str "node-c"])]).names = ["node-b"] :=
  ⟨generateSearchParams_alias.1 ["node-a"],
   generateSearchParams_alias.2
     [("nodes", SValue.list [SValue.str "node-b"]),
      ("names", SValue.list [SValue.str "node-c"])]
     ["node-b"] (SValue.list [SValue.str "node-c"]) rfl rfl⟩

/-- C6: when the client's raw search result decodes without error — every
item is convertible — `getNodes` returns exactly as many typed node
records as there are items, in the order the items appear in the input. -/
theorem getNodes_all_decode (client : Client) (names labels : String)
    (nss : List (List Node))
    (h : client "core" "nodes" "" "" names labels "" =
      Except.ok (nss.map fun ns => SearchResult.mk (ns.map RawItem.okItem))) :
    getNodes client names labels = Except.ok nss.flatten ∧
    nss.flatten.length =
      ((nss.map fun ns => SearchResult.mk (ns.map RawItem.okItem)).map
        fun r => r.items.length).sum := by
  constructor
  · simp [getNodes, h, collateResults_all_ok]
  · simp [Function.comp_def, List.length_map]

/-- Witness for C6: a client returning one result with one decodable
item yields exactly that one node. -/
theorem getNodes_all_decode_witness :
    getNodes exClient "" "" = Except.ok [exNode] ∧
    [[exNode]].flatten.length =
      (([[exNode]].map fun ns => SearchResult.mk (ns.map RawItem.okItem)).map
        fun r => r.items.length).sum :=
  ⟨(getNodes_all_decode exClient "" "" [[exNode]] rfl).1,
   (getNodes_all_decode exClient "" "" [[exNode]] rfl).2⟩

/-- C7: when at least one item of the raw search result fails to decode,
the conversion returns an error and no records — `collateResults` yields
no list at all — and the whole resolution aborts: `getNodes` errors and
`newKubeNodesProvider` never returns a config for such a response. -/
theorem getNodes_decode_failure_aborts
    (results : List SearchResult) (r : SearchResult) (msg : String)
    (hr : r ∈ results) (hi : RawItem.badItem msg ∈ r.items)
    (thread : Thread) (structVal : StringDict) (p : String)
    (client : Client) (k8sNew : String → Except String Client)
    (hclient : ∀ g k nsp v n l c, client g k nsp v n l c = Except.ok results)
    (hnew : k8sNew p = Except.ok client) :
    (∀ ns, collateResults results ≠ Except.ok ns) ∧
    (∃ e, getNodes client (generateSearchParams structVal).NamesStr
        (generateSearchParams structVal).LabelsStr = Except.error e) ∧
    (∀ dict, newKubeNodesProvider thread structVal (Except.ok p) k8sNew ≠
        Except.ok dict) := by
  rcases collateResults_bad results r msg hr hi with ⟨e, he⟩
  refine ⟨fun ns h => by simp [he] at h, ⟨e, by simp [getNodes, hclient, he]⟩, ?_⟩
  intro dict h
  simp [newKubeNodesProvider, wrapE, hnew, getNodes, hclient, he] at h

/-- Witness for C7: one undecodable item among the results makes the
resolution abort. -/
theorem getNodes_decode_failure_aborts_witness :
    (∀ ns, collateResults [SearchResult.mk [RawItem.badItem "bad shape"]] ≠
        Except.ok ns) ∧
    (∃ e, getNodes (fun _ _ _ _ _ _ _ =>
        Except.ok [SearchResult.mk [RawItem.badItem "bad shape"]])
        (generateSearchParams []).NamesStr
        (generateSearchParams []).LabelsStr = Except.error e) ∧
    (∀ dict, newKubeNodesProvider [] [] (Except.ok "kc")
        (fun _ => Except.ok (fun _ _ _ _ _ _ _ =>
          Except.ok [SearchResult.mk [RawItem.badItem "bad shape"]])) ≠
        Except.ok dict) :=
  getNodes_decode_failure_aborts
    [SearchResult.mk [RawItem.badItem "bad shape"]]
    (SearchResult.mk [RawItem.badItem "bad shape"]) "bad shape"
    (List.mem_singleton.mpr rfl) (List.mem_singleton.mpr rfl)
    [] [] "kc" _ _ (fun _ _ _ _ _ _ _ => rfl) rfl

/-- Shape of every successful resolution: when the kubeconfig lookup, the
client construction, and the node fetch succeed and the thread local store
holds a struct under the ssh key, the result is the four-entry dict with
constant `kind` and `transport`, the ordered internal-IP `hosts` list, and
the thread's default ssh struct. -/
theorem newKubeNodesProvider_ok_eq
    (thread : Thread) (structVal : StringDict) (p : String)
    (client : Client) (k8sNew : String → Except String Client)
    (nodes : List Node) (fields : List (String × SValue))
    (hnew : k8sNew p = Except.ok client)
    (hnodes : getNodes client (generateSearchParams structVal).NamesStr
        (generateSearchParams structVal).LabelsStr = Except.ok nodes)
    (hdef : sdGet thread identifiers_sshCfg = some (SValue.structv fields)) :
    newKubeNodesProvider thread structVal (Except.ok p) k8sNew =
      Except.ok
        [("kind", SValue.str identifiers_kubeNodesProvider),
         ("transport", SValue.str "ssh"),
         ("hosts", SValue.list (nodes.map fun n => SValue.str (getNodeInternalIP n))),
         (identifiers_sshCfg, SValue.structv fields)] := by
  have hdef' : sdGet thread "ssh_config" = some (SValue.structv fields) := hdef
  simp [newKubeNodesProvider, wrapE, hnew, hnodes, hdef', sdSet, sdGet,
    identifiers_sshCfg]

/-- Inversion of every successful resolution: an `Except.ok` result can
only arise with successful intermediate steps and a struct default in the
thread local store, and the returned dict has exactly the four-entry
shape. -/
theorem newKubeNodesProvider_ok_inv
    (thread : Thread) (structVal : StringDict)
    (kubeConfigPath : Except String String)
    (k8sNew : String → Except String Client) (dict : StringDict)
    (h : newKubeNodesProvider thread structVal kubeConfigPath k8sNew =
      Except.ok dict) :
    ∃ (p : String) (client : Client) (nodes : List Node)
      (fields : List (String × SValue)),
      kubeConfigPath = Except.ok p ∧
      k8sNew p = Except.ok client ∧
      getNodes client (generateSearchParams structVal).NamesStr
        (generateSearchParams structVal).LabelsStr = Except.ok nodes ∧
      sdGet thread identifiers_sshCfg = some (SValue.structv fields) ∧
      dict =
        [("kind", SValue.str identifiers_kubeNodesProvider),
         ("transport", SValue.str "ssh"),
         ("hosts", SValue.list (nodes.map fun n => SValue.str (getNodeInternalIP n))),
         (identifiers_sshCfg, SValue.structv fields)] := by
  rcases kubeConfigPath with e | p
  · simp [newKubeNodesProvider, wrapE] at h
  · rcases hnew : k8sNew p with e | client
    · simp [newKubeNodesProvider, wrapE, hnew] at h
    · rcases hnodes : getNodes client (generateSearchParams structVal).NamesStr
          (generateSearchParams structVal).LabelsStr with e | nodes
      · simp [newKubeNodesProvider, wrapE, hnew, hnodes] at h
      · rcases hdef : sdGet thread identifiers_sshCfg with _ | v
        · have hdef' : sdGet thread "ssh_config" = Option.none := hdef
          simp [newKubeNodesProvider, wrapE, hnew, hnodes, hdef',
            sdSet, sdGet, identifiers_sshCfg] at h
        · cases v with
          | structv fields =>
            refine ⟨p, client, nodes, fields, rfl, hnew, hnodes, rfl, ?_⟩
            rw [newKubeNodesProvider_ok_eq thread structVal p client k8sNew
              nodes fields hnew hnodes hdef] at h
            injection h with h2
            exact h2.symm
          | str s =>
            have hdef' : sdGet thread "ssh_config" = some (SValue.str s) := hdef
            simp [newKubeNodesProvider, wrapE, hnew, hnodes, hdef',
              sdSet, sdGet, identifiers_sshCfg] at h
          | list vs =>
            have hdef' : sdGet thread "ssh_config" = some (SValue.list vs) := hdef
            simp [newKubeNodesProvider, wrapE, hnew, hnodes, hdef',
              sdSet, sdGet, identifiers_sshCfg] at h
          | dict d =>
            have hdef' : sdGet thread "ssh_config" = some (SValue.dict d) := hdef
            simp [newKubeNodesProvider, wrapE, hnew, hnodes, hdef',
              sdSet, sdGet, identifiers_sshCfg] at h
          | none =>
            have hdef' : sdGet thread "ssh_config" = some SValue.none := hdef
            simp [newKubeNodesProvider, wrapE, hnew, hnodes, hdef',
              sdSet, sdGet, identifiers_sshCfg] at h

/-- C8: every successfully returned provider dict has `kind` equal to the
constant tag `"kube_nodes_provider"` and `transport` equal to the constant
string `"ssh"`, whatever the inputs were. -/
theorem newKubeNodesProvider_kind_transport
    (thread : Thread) (structVal : StringDict)
    (kubeConfigPath : Except String String)
    (k8sNew : String → Except String Client) (dict : StringDict)
    (h : newKubeNodesProvider thread structVal kubeConfigPath k8sNew =
      Except.ok dict) :
    sdGet dict "kind" = some (SValue.str "kube_nodes_provider") ∧
    sdGet dict "transport" = some (SValue.str "ssh") := by
  rcases newKubeNodesProvider_ok_inv thread structVal kubeConfigPath k8sNew
      dict h with ⟨p, client, nodes, fields, _, _, _, _, rfl⟩
  refine ⟨?_, ?_⟩ <;> simp [sdGet, identifiers_kubeNodesProvider]

/-- Witness for C8: a concrete successful resolution carries the constant
`kind` and `transport` entries. -/
theorem newKubeNodesProvider_kind_transport_witness :
    sdGet
      [("kind", SValue.str identifiers_kubeNodesProvider),
       ("transport", SValue.str "ssh"),
       ("hosts", SValue.list [SValue.str "10.0.0.5"]),
       (identifiers_sshCfg, SValue.structv exSshFields)] "kind" =
      some (SValue.str "kube_nodes_provider") ∧
    sdGet
      [("kind", SValue.str identifiers_kubeNodesProvider),
       ("transport", SValue.str "ssh"),
       ("hosts", SValue.list [SValue.str "10.0.0.5"]),
       (identifiers_sshCfg, SValue.structv exSshFields)] "transport" =
      some (SValue.str "ssh") :=
  newKubeNodesProvider_kind_transport
    [(identifiers_sshCfg, SValue.structv exSshFields)] []
    (Except.ok "kubecfg") (fun _ => Except.ok exClient) _ rfl

/-- C5: on every successful resolution the `hosts` entry of the returned
dict is the ordered list of `getNodeInternalIP` values, one entry per
discovered record, in discovery order — empty-string entries included,
nothing filtered out. -/
theorem newKubeNodesProvider_hosts_order
    (thread : Thread) (structVal : StringDict) (p : String)
    (client : Client) (k8sNew : String → Except String Client)
    (nodes : List Node) (fields : List (String × SValue))
    (hnew : k8sNew p = Except.ok client)
    (hnodes : getNodes client (generateSearchParams structVal).NamesStr
        (generateSearchParams structVal).LabelsStr = Except.ok nodes)
    (hdef : sdGet thread identifiers_sshCfg = some (SValue.structv fields)) :
    ∃ dict,
      newKubeNodesProvider thread structVal (Except.ok p) k8sNew =
        Except.ok dict ∧
      sdGet dict "hosts" =
        some (SValue.list (nodes.map fun n => SValue.str (getNodeInternalIP n))) ∧
      (nodes.map fun n => SValue.str (getNodeInternalIP n)).length =
        nodes.length := by
  refine ⟨_, newKubeNodesProvider_ok_eq thread structVal p client k8sNew
    nodes fields hnew hnodes hdef, ?_, by simp⟩
  simp [sdGet, identifiers_sshCfg]

/-- Witness for C5: two discovered nodes, the second without any
`"InternalIP"` address, appear in `hosts` as `["10.0.0.5", ""]` — the
empty entry is kept, in discovery order. -/
theorem newKubeNodesProvider_hosts_order_witness :
    ∃ dict,
      newKubeNodesProvider [(identifiers_sshCfg, SValue.structv exSshFields)]
        [] (Except.ok "kubecfg")
        (fun _ => Except.ok (fun _ _ _ _ _ _ _ => Except.ok
          [SearchResult.mk
            [RawItem.okItem exNode,
             RawItem.okItem (Node.mk (NodeStatus.mk
               [NodeAddress.mk "Hostname" "node-b"]))]])) =
        Except.ok dict ∧
      sdGet dict "hosts" =
        some (SValue.list
          ([exNode, Node.mk (NodeStatus.mk [NodeAddress.mk "Hostname" "node-b"])].map
            fun n => SValue.str (getNodeInternalIP n))) ∧
      (([exNode,
         Node.mk (NodeStatus.mk [NodeAddress.mk "Hostname" "node-b"])].map
        fun n => SValue.str (getNodeInternalIP n)).length : Nat) = 2 :=
  newKubeNodesProvider_hosts_order
    [(identifiers_sshCfg, SValue.structv exSshFields)] [] "kubecfg"
    (fun _ _ _ _ _ _ _ => Except.ok
      [SearchResult.mk
        [RawItem.okItem exNode,
         RawItem.okItem (Node.mk (NodeStatus.mk
           [NodeAddress.mk "Hostname" "node-b"]))]])
    _ _ exSshFields rfl rfl rfl

/-- C2: when the arguments carry no `ssh_config` entry and the thread
local store holds no default ssh configuration, a resolution whose earlier
steps all succeed fails with the missing-default error and yields no
provider dict at all. -/
theorem newKubeNodesProvider_missing_default
    (thread : Thread) (structVal : StringDict) (p : String)
    (client : Client) (k8sNew : String → Except String Client)
    (nodes : List Node)
    ( _hnoarg : sdGet structVal identifiers_sshCfg = Option.none)
    (hnodef : sdGet thread identifiers_sshCfg = Option.none)
    (hnew : k8sNew p = Except.ok client)
    (hnodes : getNodes client (generateSearchParams structVal).NamesStr
        (generateSearchParams structVal).LabelsStr = Except.ok nodes) :
    newKubeNodesProvider thread structVal (Except.ok p) k8sNew =
      Except.error
        (identifiers_kubeNodesProvider ++ ": default ssh_config not found") ∧
    ∀ dict, newKubeNodesProvider thread structVal (Except.ok p) k8sNew ≠
      Except.ok dict := by
  have hnodef' : sdGet thread "ssh_config" = Option.none := hnodef
  have h1 : newKubeNodesProvider thread structVal (Except.ok p) k8sNew =
      Except.error
        (identifiers_kubeNodesProvider ++ ": default ssh_config not found") := by
    simp [newKubeNodesProvider, wrapE, hnew, hnodes, hnodef', sdSet, sdGet,
      identifiers_sshCfg]
  exact ⟨h1, fun dict hok => by rw [h1] at hok; cases hok⟩

/-- Witness for C2: empty arguments, empty thread local store, a working
client — resolution fails with the missing-default error. -/
theorem newKubeNodesProvider_missing_default_witness :
    newKubeNodesProvider [] [] (Except.ok "kubecfg")
        (fun _ => Except.ok exClient) =
      Except.error
        (identifiers_kubeNodesProvider ++ ": default ssh_config not found") ∧
    ∀ dict, newKubeNodesProvider [] [] (Except.ok "kubecfg")
        (fun _ => Except.ok exClient) ≠ Except.ok dict :=
  newKubeNodesProvider_missing_default [] [] "kubecfg" exClient
    (fun _ => Except.ok exClient) [exNode] rfl rfl rfl rfl

/-- C1 (evaluation at the failing input): the caller supplies an explicit
`ssh_config` struct, the thread local store holds a different default —
yet the returned provider dict carries the thread default, not the
supplied value: the guard in the source inspects the freshly built result
dict (which never contains the ssh key), so the explicit argument is
silently discarded. -/
theorem newKubeNodesProvider_explicit_ssh_ignored :
    newKubeNodesProvider
        [(identifiers_sshCfg, SValue.structv [("username", SValue.str "defaultuser")])]
        [(identifiers_sshCfg, SValue.structv [("username", SValue.str "explicituser")])]
        (Except.ok "kubecfg")
        (fun _ => Except.ok (fun _ _ _ _ _ _ _ => Except.ok [])) =
      Except.ok
        [("kind", SValue.str "kube_nodes_provider"),
         ("transport", SValue.str "ssh"),
         ("hosts", SValue.list []),
         ("ssh_config", SValue.structv [("username", SValue.str "defaultuser")])] ∧
    SValue.structv [("username", SValue.str "defaultuser")] ≠
      SValue.structv [("username", SValue.str "explicituser")] := by
  refine ⟨rfl, ?_⟩
  intro h
  simp at h

/-- C9: resolution is deterministic — two calls with identical thread
state, identical arguments, identical kubeconfig outcome and identical
client behavior (hence identical query responses) return identical
values. -/
theorem newKubeNodesProvider_deterministic
    (t1 t2 : Thread) (s1 s2 : StringDict)
    (k1 k2 : Except String String)
    (n1 n2 : String → Except String Client)
    (ht : t1 = t2) (hs : s1 = s2) (hk : k1 = k2) (hn : n1 = n2) :
    newKubeNodesProvider t1 s1 k1 n1 = newKubeNodesProvider t2 s2 k2 n2 := by
  rw [ht, hs, hk, hn]

/-- Witness for C9: two textually identical concrete calls agree. -/
theorem newKubeNodesProvider_deterministic_witness :
    newKubeNodesProvider [(identifiers_sshCfg, SValue.structv exSshFields)]
        [] (Except.ok "kubecfg") (fun _ => Except.ok exClient) =
      newKubeNodesProvider [(identifiers_sshCfg, SValue.structv exSshFields)]
        [] (Except.ok "kubecfg") (fun _ => Except.ok exClient) :=
  newKubeNodesProvider_deterministic _ _ _ _ _ _ _ _ rfl rfl rfl rfl

/-- C10: every call to the `crashd_config` built-in succeeds and replaces
the thread local entry for the default configuration with the dictionary
built from that call's keyword arguments — whatever was stored before is
overwritten (last writer wins) — and a call with nil keyword arguments
stores and returns the nil dictionary with no error. -/
theorem crashdConfigFn_replaces_default
    (thread : Thread) (kwargs : Option (List (String × SValue))) :
    ∃ d thread',
      crashdConfigFn thread kwargs = Except.ok (d, thread') ∧
      sdGet thread' identifiers_crashdCfg = some d ∧
      (kwargs = Option.none → d = SValue.none) := by
  refine ⟨_, _, rfl, sdGet_sdSet_self _ _ _, ?_⟩
  intro hk
  subst hk
  rfl

/-- Witness for C10: a call with nil kwargs on a thread that already holds
an older default overwrites it with the nil dictionary, without error. -/
theorem crashdConfigFn_replaces_default_witness :
    ∃ d thread',
      crashdConfigFn [(identifiers_crashdCfg, SValue.str "old")] Option.none =
        Except.ok (d, thread') ∧
      sdGet thread' identifiers_crashdCfg = some d ∧
      ((Option.none : Option (List (String × SValue))) = Option.none →
        d = SValue.none) :=
  crashdConfigFn_replaces_default
    [(identifiers_crashdCfg, SValue.str "old")] Option.none

end CrashDiagnostics
